import Mathlib

/-!
Shallow embedding of the lockfile subsystem of poac
(`src/include/poac/data/lockfile.hpp`), together with theorems
settling the specification's claims about it.

Machine types: `toml::integer` is embedded as `Int`, `toml::string`
(and `std::string`) as `String`.  The dependency-graph container
`resolver::unique_deps_t<resolver::with_deps>` and the resolver's
`package_t` come from a header that is not part of the shown source,
so they are modelled from the spec (ordered map from a
`(name, version)` package key to an optional ordered edge list).
Filesystem effects (`fs::exists`, `fs::last_write_time`, `ofstream`)
are embedded as explicit state records passed to and returned from
the operations that touch them.
-/

namespace Poac

/-- Modelled from the spec: the resolver's `package_t` (missing header
`poac/core/resolver/resolve.hpp`) — a package identity `(name, version)`,
the unique key of a dependency-graph node.  `resolver::get_name` /
`resolver::get_version` are the field projections. -/
structure RPackage where
  name : String
  version : String
deriving DecidableEq, Repr

/-- An ordered list of dependency edges `(name, version)`. -/
abbrev Edges := List (String × String)

/-- Modelled from the spec: `resolver::unique_deps_t<resolver::with_deps>`
(missing header) — a mapping from package key to an optional ordered edge
list, embedded as an association list in iteration order; keys are unique
by `(name, version)`. -/
abbrev UniqueDeps := List (RPackage × Option Edges)

/-- `lockfile_version`: the schema constant, fixed to `1`. -/
def lockfile_version : Int := 1

/-- `lockfile_header`: the fixed disclaimer comment serialized at the top
of the lock document. -/
def lockfile_header : String :=
  " This file is automatically generated by Poac.\n# It is not intended for manual editing."

/-- `v1::package_t`: one record of the persisted `[[package]]` array. -/
structure package_t where
  name : String
  version : String
  dependencies : List String
deriving DecidableEq, Repr

/-- `v1::lockfile_t`: the persisted document schema. -/
structure lockfile_t where
  version : Int := lockfile_version
  package : List package_t
deriving DecidableEq, Repr

/-- The error taxonomy of the subsystem (`lockfile::Error`). -/
inductive Error where
  | InvalidLockfileVersion : Int → Error
  | FailedToReadLockfile : String → Error
deriving DecidableEq, Repr

/-- A `toml::basic_value<toml::preserve_comments>` holding a lock document:
the typed value together with the comments attached at construction.
Serialization mechanics of the toml library are outside the subsystem, so
the on-disk content is identified with this value. -/
structure TomlValue where
  comments : List String
  value : lockfile_t
deriving DecidableEq, Repr

/-- The loop of `convert_to_lock`: one `package_t` per graph entry, in
iteration order; `dependencies` is the names-only projection of the edge
list when present, and stays the empty vector when the edge list is
absent. -/
def convert_to_lock_packages : UniqueDeps → List package_t
  | [] => []
  | (pack, inner_deps) :: rest =>
    let p : package_t :=
      { name := pack.name, version := pack.version, dependencies := [] }
    let p :=
      match inner_deps with
      | some ideps => { p with dependencies := ideps.map (fun nv => nv.fst) }
      | none => p
    p :: convert_to_lock_packages rest

/-- `convert_to_lock`: graph to document.  The source's return type admits
failure (`anyhow::result`), but the body has no failing path and always
ends in `mitama::success(lock)`. -/
def convert_to_lock (deps : UniqueDeps) : Except Error TomlValue :=
  Except.ok
    { comments := [lockfile_header]
      value := { version := lockfile_version, package := convert_to_lock_packages deps } }

/-- `unordered_map::emplace`: inserts only when the key is not already
present (it never overwrites an existing mapping). -/
def emplace (m : UniqueDeps) (k : RPackage) (v : Option Edges) : UniqueDeps :=
  if m.any (fun kv => kv.fst = k) then m else m ++ [(k, v)]

/-- The loop of `convert_to_deps`.  Faithful to the source including its
slip: the local `ideps` vector of `(name, "")` pairs is built when
`package.dependencies` is non-empty but is never assigned to
`inner_deps`, which therefore stays `std::nullopt` for every record. -/
def convert_to_deps_loop : List package_t → UniqueDeps → UniqueDeps
  | [], deps => deps
  | package :: rest, deps =>
    let inner_deps : Option Edges := none
    let _ideps : Edges :=
      if package.dependencies.isEmpty then []
      else package.dependencies.map (fun name => (name, ""))
    convert_to_deps_loop rest
      (emplace deps { name := package.name, version := package.version } inner_deps)

/-- `convert_to_deps`: document back to graph. -/
def convert_to_deps (lock : lockfile_t) : UniqueDeps :=
  convert_to_deps_loop lock.package []

/-- The filesystem facts `read` consults: whether
`base_dir / lockfile_name` exists, and the combined outcome of
`toml::parse` plus `toml::get<lockfile_t>` on it — `Except.error msg`
when the toml library throws an exception whose `what()` is `msg`. -/
structure ReadFs where
  lockfileExists : Bool
  parsed : Except String lockfile_t

/-- `read`: absent file succeeds with `none`; otherwise parse and typed
extraction run inside a `try` block — an exception is caught at this
boundary and becomes `FailedToReadLockfile e.what()`; a parsed document
whose `version` differs from `lockfile_version` fails with
`InvalidLockfileVersion` carrying the parsed value; otherwise the graph
conversion runs and the result is `some` graph. -/
def read (fs : ReadFs) : Except Error (Option UniqueDeps) :=
  if !fs.lockfileExists then
    Except.ok none
  else
    match fs.parsed with
    | Except.ok parsed_lock =>
      if parsed_lock.version ≠ lockfile_version then
        Except.error (Error.InvalidLockfileVersion parsed_lock.version)
      else
        Except.ok (some (convert_to_deps parsed_lock))
    | Except.error e => Except.error (Error.FailedToReadLockfile e)

/-- The filesystem state the writer path touches: existence and
last-modified time of `poac.lock`, last-modified time of `poac.toml`
(the manifest), the current lock-document content, whether the
`ofstream` open/write fails (the stream enters its fail state and the
insertion does nothing — it does not throw), and the clock used to stamp
a successful write. -/
structure FsState where
  lockExists : Bool
  lockMtime : Nat
  manifestMtime : Nat
  lockContent : Option TomlValue
  writeFails : Bool
  now : Nat
deriving DecidableEq, Repr

/-- `is_outdated`: true when `poac.lock` is missing, otherwise true iff
its last-modified time is strictly earlier than the manifest's. -/
def is_outdated (st : FsState) : Bool :=
  if !st.lockExists then true
  else decide (st.lockMtime < st.manifestMtime)

/-- `overwrite`: converts the graph (the `MITAMA_TRY` propagating a
conversion error), opens an `ofstream` on the lock path and inserts the
toml value, then returns `mitama::success()` unconditionally — the
stream's error state is never inspected, so a failed open or write is
silently ignored. -/
def overwrite (deps : UniqueDeps) (st : FsState) : Except Error Unit × FsState :=
  match convert_to_lock deps with
  | Except.error e => (Except.error e, st)
  | Except.ok lock =>
    if st.writeFails then
      (Except.ok (), st)
    else
      (Except.ok (),
        { st with lockExists := true, lockContent := some lock, lockMtime := st.now })

/-- `generate`: delegates to `overwrite` when `is_outdated`, otherwise
returns success without touching anything. -/
def generate (deps : UniqueDeps) (st : FsState) : Except Error Unit × FsState :=
  if is_outdated st then overwrite deps st
  else (Except.ok (), st)

/-- The `package_t` record that `convert_to_lock` emits for one graph
node: name and version from the key, dependencies the names-only
projection of the edge list, or empty when the edge list is absent. -/
def record_of_node (kv : RPackage × Option Edges) : package_t :=
  { name := kv.fst.name
    version := kv.fst.version
    dependencies := (kv.snd.getD []).map Prod.fst }

/-- Composition of the two converters, as the round-trip property
phrases it (the document value out of `convert_to_lock` fed to
`convert_to_deps`). -/
def round_trip (g : UniqueDeps) : UniqueDeps :=
  match convert_to_lock g with
  | Except.ok t => convert_to_deps t.value
  | Except.error _ => []

-- Concrete inputs used by witnesses and counterexamples.

/-- A one-node graph whose node has a resolved dependency edge. -/
def gAB : UniqueDeps :=
  [({ name := "A", version := "1.0" }, some [("B", "2.0")])]

/-- The end-to-end example document of the spec: `A` depends on `B`,
`B` has no tracked dependencies. -/
def docAB : lockfile_t :=
  { version := 1
    package :=
      [ { name := "A", version := "1.0", dependencies := ["B"] }
      , { name := "B", version := "2.0", dependencies := [] } ] }

/-- A parsed document carrying schema version `2`. -/
def fsV2 : ReadFs :=
  { lockfileExists := true, parsed := Except.ok { version := 2, package := [] } }

/-- A project directory with no lock document. -/
def fsAbsent : ReadFs :=
  { lockfileExists := false, parsed := Except.error "unused" }

/-- A lock document present but malformed: the toml step throws. -/
def fsMalformed : ReadFs :=
  { lockfileExists := true
    parsed := Except.error "toml value should be table but is integer" }

/-- A fresh filesystem state: the lock document exists and its mtime
equals the manifest's, with some persisted content on disk. -/
def stFresh : FsState :=
  { lockExists := true, lockMtime := 5, manifestMtime := 5
    lockContent := some { comments := [lockfile_header]
                          value := { version := 1, package := [] } }
    writeFails := false, now := 9 }

/-- A filesystem state in which opening or writing the lock document
fails. -/
def stBrokenDisk : FsState :=
  { lockExists := true, lockMtime := 0, manifestMtime := 1
    lockContent := none, writeFails := true, now := 7 }

/-- A graph differing from the content persisted in `stFresh`. -/
def gOther : UniqueDeps :=
  [({ name := "C", version := "3.0" }, none)]

-- ---------------------------------------------------------------- theorems

/-- Claim C2 (code bug, evaluation at the failing input): on the spec's
end-to-end example document, `convert_to_deps` returns absent edge lists
for every record — including record `A`, whose `dependencies` list is
non-empty.  The source builds the `(name, "")` edge vector `ideps` but
never assigns it to `inner_deps`, so the claimed present edge list
`[("B", "")]` is never produced. -/
theorem convert_to_deps_drops_nonempty_deps :
    convert_to_deps docAB =
      [ ({ name := "A", version := "1.0" }, none)
      , ({ name := "B", version := "2.0" }, none) ] := by
  decide

/-- Claim C1 (code bug, evaluation at the failing input): the round trip
on a graph whose single node carries edge `("B", "2.0")` yields that node
with an absent edge list, so the set of dependency names at key
`(A, "1.0")` is not preserved (the input has `{B}`, the output has none),
contrary to the round-trip property. -/
theorem round_trip_loses_dependency_names :
    round_trip gAB = [({ name := "A", version := "1.0" }, none)] ∧
      gAB = [({ name := "A", version := "1.0" }, some [("B", "2.0")])] := by
  exact ⟨by decide, rfl⟩

/-- Claim C3: when the lock document exists and parses to a document
whose `version` differs from the schema constant, `read` fails with
`InvalidLockfileVersion` carrying the parsed version value; in
particular the result is an error, never `some` graph, so graph
conversion is not attempted. -/
theorem read_version_gate (fs : ReadFs) (lock : lockfile_t)
    (hex : fs.lockfileExists = true)
    (hp : fs.parsed = Except.ok lock)
    (hv : lock.version ≠ lockfile_version) :
    read fs = Except.error (Error.InvalidLockfileVersion lock.version) := by
  unfold read
  rw [hex, hp]
  simp [hv]

/-- Claim C3 witness: a parsed document with `version = 2` makes `read`
fail with `InvalidLockfileVersion 2`. -/
theorem read_version_gate_witness :
    read fsV2 = Except.error (Error.InvalidLockfileVersion 2) :=
  read_version_gate fsV2 { version := 2, package := [] } rfl rfl (by decide)

/-- Claim C4: when no lock document exists, `read` succeeds with `none`,
consulting no parse outcome. -/
theorem read_absent_is_none (fs : ReadFs)
    (hex : fs.lockfileExists = false) :
    read fs = Except.ok none := by
  unfold read
  rw [hex]
  rfl

/-- Claim C4 witness: `read` on a directory without a lock document
returns `Except.ok none`. -/
theorem read_absent_is_none_witness :
    read fsAbsent = Except.ok none :=
  read_absent_is_none fsAbsent rfl

/-- Claim C5: when the lock document exists and the toml parse or typed
extraction throws with message `msg`, `read` returns
`FailedToReadLockfile msg` — the diagnostic verbatim — and, being a total
function of the parse outcome, lets no exception escape. -/
theorem read_wraps_parse_exception (fs : ReadFs) (msg : String)
    (hex : fs.lockfileExists = true)
    (hp : fs.parsed = Except.error msg) :
    read fs = Except.error (Error.FailedToReadLockfile msg) := by
  unfold read
  rw [hex, hp]
  rfl

/-- Claim C5 witness: a malformed document's diagnostic is carried
verbatim in `FailedToReadLockfile`. -/
theorem read_wraps_parse_exception_witness :
    read fsMalformed =
      Except.error
        (Error.FailedToReadLockfile "toml value should be table but is integer") :=
  read_wraps_parse_exception fsMalformed
    "toml value should be table but is integer" rfl rfl

/-- Claim C6: `is_outdated` is true exactly when the lock document is
missing or its last-modified time is strictly earlier than the
manifest's; in every other case — including equal times — it is
false. -/
theorem is_outdated_iff (st : FsState) :
    is_outdated st = true ↔
      (st.lockExists = false ∨ st.lockMtime < st.manifestMtime) := by
  unfold is_outdated
  cases h : st.lockExists <;> simp

/-- Claim C7: when the lock document is fresh (`is_outdated` is false),
`generate` returns success and the entire filesystem state — in
particular the on-disk lock-document content — is returned unchanged,
whatever graph is passed in; `overwrite` contributes nothing to the
result. -/
theorem generate_fresh_is_noop (deps : UniqueDeps) (st : FsState)
    (hfresh : is_outdated st = false) :
    generate deps st = (Except.ok (), st) := by
  unfold generate
  rw [hfresh]
  rfl

/-- Claim C7 witness: with a fresh state and an in-memory graph differing
from the persisted content, `generate` leaves the state untouched. -/
theorem generate_fresh_is_noop_witness :
    generate gOther stFresh = (Except.ok (), stFresh) :=
  generate_fresh_is_noop gOther stFresh (by decide)

/-- Claim C8 counterexample: in a state where opening or writing the lock
document fails, `overwrite` still returns success — the claim that every
I/O failure surfaces as an error is false on the code, which never
inspects the stream's error state. -/
theorem overwrite_succeeds_despite_io_failure :
    stBrokenDisk.writeFails = true ∧
      (overwrite gOther stBrokenDisk).fst = Except.ok () :=
  ⟨rfl, rfl⟩

/-- Claim C8 as amended: `overwrite` returns success for every graph and
every filesystem state — I/O failures while opening or writing are
silently ignored (the `ofstream` error state is never checked), and the
only other fallible step, `convert_to_lock`, never fails. -/
theorem overwrite_always_succeeds (deps : UniqueDeps) (st : FsState) :
    (overwrite deps st).fst = Except.ok () := by
  unfold overwrite convert_to_lock
  by_cases h : st.writeFails <;> simp [h]

/-- Claim C9: `convert_to_lock` succeeds with the fixed disclaimer
comment and a document whose `version` is the schema constant `1` and
whose `package` array has, in the graph's iteration order, exactly one
record per graph entry — name and version from the key, `dependencies`
the names-only projection of the edge list (versions dropped), empty
when the edge list is absent. -/
theorem convert_to_lock_emits_one_record_per_node (deps : UniqueDeps) :
    convert_to_lock deps =
      Except.ok
        { comments := [lockfile_header]
          value := { version := lockfile_version
                     package := deps.map record_of_node } } := by
  unfold convert_to_lock
  have h : ∀ ds : UniqueDeps, convert_to_lock_packages ds = ds.map record_of_node := by
    intro ds
    induction ds with
    | nil => rfl
    | cons kv rest ih =>
      obtain ⟨pack, inner⟩ := kv
      cases inner <;> simp [convert_to_lock_packages, record_of_node, ih, Option.getD]
  rw [h]

/-- Claim C10: `convert_to_lock` never returns an error, so callers such
as `overwrite` cannot observe a failure from the graph-to-document
conversion even though its return type admits one. -/
theorem convert_to_lock_is_total (deps : UniqueDeps) :
    (convert_to_lock deps).isOk = true :=
  rfl

end Poac
